import Mathlib

/-
Verification of the racing-simulation core of RocketRetroRumble.

Shallow embedding of the game store (client/src/lib/stores/useRocketGame.tsx),
the collision engine (client/src/lib/collisionDetection.ts), the constants
(client/src/lib/constants.ts) and the per-frame driver (the Game component's
useFrame loop).  Geometry is embedded over the real numbers; the JavaScript
floating-point operations are modelled as exact real arithmetic.
-/

namespace RocketGame

noncomputable section

/-! ## Geometry: THREE.Vector3, THREE.Quaternion, THREE.Box3 -/

/-- A 3-component vector (THREE.Vector3), over exact reals. -/
structure Vec3 where
  x : ℝ
  y : ℝ
  z : ℝ
deriving DecidableEq

def vadd (a b : Vec3) : Vec3 := ⟨a.x + b.x, a.y + b.y, a.z + b.z⟩

def vsub (a b : Vec3) : Vec3 := ⟨a.x - b.x, a.y - b.y, a.z - b.z⟩

/-- THREE.Vector3.multiplyScalar. -/
def smul (c : ℝ) (a : Vec3) : Vec3 := ⟨c * a.x, c * a.y, c * a.z⟩

def vdot (a b : Vec3) : ℝ := a.x * b.x + a.y * b.y + a.z * b.z

def vzero : Vec3 := ⟨0, 0, 0⟩

/-- THREE.Vector3.length: Euclidean norm. -/
def vlength (a : Vec3) : ℝ := Real.sqrt (a.x ^ 2 + a.y ^ 2 + a.z ^ 2)

/-- THREE.Vector3.normalize: divideScalar (length or 1 when the length is 0). -/
def vnormalize (a : Vec3) : Vec3 :=
  if vlength a = 0 then a else smul (1 / vlength a) a

/-- THREE.Vector3.distanceTo. -/
def vdist (a b : Vec3) : ℝ := vlength (vsub a b)

/-- THREE.Vector3.lerpVectors a b t = a + (b - a) * t. -/
def vlerp (a b : Vec3) (t : ℝ) : Vec3 := vadd a (smul t (vsub b a))

/-- THREE.Vector3.projectOnPlane n: subtract the projection onto n
(the source relies on n being unit length). -/
def projectOnPlane (v n : Vec3) : Vec3 := vsub v (smul (vdot v n) n)

/-- A quaternion (THREE.Quaternion), components (x, y, z, w).
The source stores the rocket orientation as a THREE.Euler but uses it only
through the round trip Euler ↔ Quaternion (setFromEuler / setFromQuaternion),
i.e. only the rotation it denotes matters; the embedding stores the
quaternion directly. -/
structure Quat where
  qx : ℝ
  qy : ℝ
  qz : ℝ
  qw : ℝ
deriving DecidableEq

/-- The identity quaternion, `new THREE.Quaternion()`. -/
def qid : Quat := ⟨0, 0, 0, 1⟩

/-- THREE.Quaternion.setFromAxisAngle (axis assumed unit). -/
def axisAngle (axis : Vec3) (angle : ℝ) : Quat :=
  ⟨axis.x * Real.sin (angle / 2), axis.y * Real.sin (angle / 2),
   axis.z * Real.sin (angle / 2), Real.cos (angle / 2)⟩

/-- THREE.Quaternion.multiply: Hamilton product a * b. -/
def qmul (a b : Quat) : Quat :=
  ⟨a.qx * b.qw + a.qw * b.qx + a.qy * b.qz - a.qz * b.qy,
   a.qy * b.qw + a.qw * b.qy + a.qz * b.qx - a.qx * b.qz,
   a.qz * b.qw + a.qw * b.qz + a.qx * b.qy - a.qy * b.qx,
   a.qw * b.qw - a.qx * b.qx - a.qy * b.qy - a.qz * b.qz⟩

/-- THREE.Vector3.applyQuaternion: t = 2 (q.xyz × v); v + q.w t + q.xyz × t. -/
def applyQuat (v : Vec3) (q : Quat) : Vec3 :=
  let tx := 2 * (q.qy * v.z - q.qz * v.y)
  let ty := 2 * (q.qz * v.x - q.qx * v.z)
  let tz := 2 * (q.qx * v.y - q.qy * v.x)
  ⟨v.x + q.qw * tx + (q.qy * tz - q.qz * ty),
   v.y + q.qw * ty + (q.qz * tx - q.qx * tz),
   v.z + q.qw * tz + (q.qx * ty - q.qy * tx)⟩

/-- An axis-aligned box (THREE.Box3). -/
structure Box3 where
  bmin : Vec3
  bmax : Vec3

/-- THREE.Box3.setFromCenterAndSize. -/
def boxFromCenterSize (center size : Vec3) : Box3 :=
  ⟨vsub center (smul (1 / 2) size), vadd center (smul (1 / 2) size)⟩

/-- THREE.Box3.intersectsBox (negation of the separating-interval test). -/
def boxIntersects (a b : Box3) : Prop :=
  ¬(b.bmax.x < a.bmin.x ∨ b.bmin.x > a.bmax.x ∨
    b.bmax.y < a.bmin.y ∨ b.bmin.y > a.bmax.y ∨
    b.bmax.z < a.bmin.z ∨ b.bmin.z > a.bmax.z)

instance (a b : Box3) : Decidable (boxIntersects a b) := by
  unfold boxIntersects; infer_instance

/-! ## Constants (client/src/lib/constants.ts) -/

namespace ROCKET

def MAX_SPEED : ℝ := 2
def ACCELERATION : ℝ := 0.02
def ROTATION_SPEED : ℝ := 0.03
def PITCH_SPEED : ℝ := 0.02
def DRAG : ℝ := 0.98
def BOOST_MULTIPLIER : ℝ := 2
def BOOST_DURATION : ℝ := 2000
def BOOST_COOLDOWN : ℝ := 5000
def COLLISION_DAMAGE : ℝ := 10

end ROCKET

namespace TRACK

def SEGMENT_LENGTH : ℝ := 100
def WIDTH : ℝ := 30
def CURVATURE_MAX : ℝ := 0.3
def PITCH_MAX : ℝ := 0.2
def CHECKPOINT_INTERVAL : ℤ := 3

end TRACK

/-! ## Data model -/

/-- GamePhase (constants.ts). -/
inductive GamePhase where
  | ready
  | playing
  | finished
  | gameOver
deriving DecidableEq

/-- The per-tick control intent: the named boolean controls. -/
structure Controls where
  forward : Bool
  backward : Bool
  leftward : Bool
  rightward : Bool
  pitchUp : Bool
  pitchDown : Bool
  boost : Bool
  restart : Bool

/-- The control intent with no key pressed. -/
def noCtl : Controls := ⟨false, false, false, false, false, false, false, false⟩

/-- Hazard kinds (HAZARD_TYPES, in Object.values order). -/
inductive HazardType where
  | asteroid
  | turbulence
  | gravityAnomaly
deriving DecidableEq

/-- Power-up kinds (POWERUP_TYPES, in Object.values order). -/
inductive PowerUpType where
  | boostP
  | shieldP
deriving DecidableEq

structure TrackSegment where
  start : Vec3
  endPt : Vec3
  direction : Vec3
  width : ℝ
  curvature : ℝ
  pitch : ℝ
  isCheckpoint : Bool
  id : ℤ

structure Hazard where
  htype : HazardType
  position : Vec3
  size : ℝ
  id : ℤ
  active : Bool

structure PowerUp where
  ptype : PowerUpType
  position : Vec3
  size : ℝ
  id : ℤ
  active : Bool

structure RocketState where
  position : Vec3
  rotation : Quat
  velocity : Vec3
  speed : ℝ
  health : ℝ
  isShielded : Bool
  isBoosting : Bool
  boostCooldown : Bool
  boostTimeRemaining : ℝ
  shieldTimeRemaining : ℝ

/-- The zustand store state (useRocketGame). -/
structure GameState where
  phase : GamePhase
  time : ℝ
  score : ℤ
  lap : ℤ
  lapTimes : List ℝ
  bestLapTime : Option ℝ
  lastCheckpointId : ℤ
  rocket : RocketState
  track : List TrackSegment
  hazards : List Hazard
  powerUps : List PowerUp
  cameraTarget : Vec3

/-- A deferred wall-clock side effect scheduled with setTimeout during a tick,
carrying its delay in milliseconds. -/
inductive Sched where
  | clearBoostCooldown (delayMs : ℝ)
  | endGameLose (delayMs : ℝ)
deriving DecidableEq

/-- The initial rocket of the store (also the rocket produced by start/restart). -/
def initialRocket : RocketState :=
  { position := ⟨0, 2, 0⟩
    rotation := qid
    velocity := vzero
    speed := 0
    health := 100
    isShielded := false
    isBoosting := false
    boostCooldown := false
    boostTimeRemaining := 0
    shieldTimeRemaining := 0 }

/-- The initial store state (`create` initializer in useRocketGame). -/
def initialState : GameState :=
  { phase := GamePhase.ready
    time := 0
    score := 0
    lap := 1
    lapTimes := []
    bestLapTime := none
    lastCheckpointId := 0
    rocket := initialRocket
    track := []
    hazards := []
    powerUps := []
    cameraTarget := vzero }

/-! ## Race progression (useRocketGame actions) -/

/-- checkpointPassed (useRocketGame.tsx): ignore ids at or below the
last-accepted id; otherwise award 100, and on a lap boundary
(id divisible by CHECKPOINT_INTERVAL * 4 and positive) increment the lap,
record the lap time, update the best lap, award 500 more and zero the clock. -/
def checkpointPassed (checkpointId : ℤ) (s : GameState) : GameState :=
  if checkpointId ≤ s.lastCheckpointId then s
  else
    let newScore := s.score + 100
    if checkpointId % (TRACK.CHECKPOINT_INTERVAL * 4) = 0 ∧ 0 < checkpointId then
      let lapTime := s.time
      let newBest : ℝ :=
        match s.bestLapTime with
        | none => lapTime
        | some b => if lapTime < b then lapTime else b
      { s with
          lap := s.lap + 1
          lapTimes := s.lapTimes ++ [lapTime]
          bestLapTime := some newBest
          score := newScore + 500
          lastCheckpointId := checkpointId
          time := 0 }
    else
      { s with score := newScore, lastCheckpointId := checkpointId }

/-- activatePowerUp (useRocketGame.tsx). -/
def activatePowerUp (t : PowerUpType) (s : GameState) : GameState :=
  match t with
  | PowerUpType.boostP =>
      { s with rocket :=
          { s.rocket with isBoosting := true,
                          boostTimeRemaining := ROCKET.BOOST_DURATION } }
  | PowerUpType.shieldP =>
      { s with rocket :=
          { s.rocket with isShielded := true, shieldTimeRemaining := 5000 } }

/-- endGame (useRocketGame.tsx). -/
def endGame (won : Bool) (s : GameState) : GameState :=
  { s with phase := if won then GamePhase.finished else GamePhase.gameOver }

/-! ## Track streaming generator -/

/-- The random draws consumed by one segment-generation step, in source order:
curvature and pitch rolls, then the hazard rolls (placement parameter t,
offset direction x/z, offset length, type, size, and the id suffix roll used
by generateNewTrackSegment), then the power-up rolls.  Each is a real from
the interval [0, 1) standing for one Math.random() call. -/
structure GenRand where
  curv : ℝ
  pitch : ℝ
  hazRoll : ℝ
  hazT : ℝ
  hazOffX : ℝ
  hazOffZ : ℝ
  hazOffLen : ℝ
  hazTypeR : ℝ
  hazSizeR : ℝ
  hazIdR : ℝ
  powRoll : ℝ
  powT : ℝ
  powOffX : ℝ
  powOffZ : ℝ
  powOffLen : ℝ
  powTypeR : ℝ
  powIdR : ℝ

/-- hazardTypes[Math.floor(r * hazardTypes.length)] (out-of-range indices,
impossible for r in [0,1), fall back to the first entry). -/
def pickHazardType (r : ℝ) : HazardType :=
  [HazardType.asteroid, HazardType.turbulence,
   HazardType.gravityAnomaly].getD (Int.floor (r * 3)).toNat HazardType.asteroid

/-- powerUpTypes[Math.floor(r * powerUpTypes.length)]. -/
def pickPowerUpType (r : ℝ) : PowerUpType :=
  [PowerUpType.boostP, PowerUpType.shieldP].getD
    (Int.floor (r * 2)).toNat PowerUpType.boostP

/-- Direction of a new segment: copy the previous direction, rotate by the
curvature about y and the pitch about x, then normalize. -/
def newSegmentDirection (prevDir : Vec3) (curvature pitch : ℝ) : Vec3 :=
  vnormalize
    (applyQuat (applyQuat prevDir (axisAngle ⟨0, 1, 0⟩ curvature))
      (axisAngle ⟨1, 0, 0⟩ pitch))

/-- Hazard position within a segment: lerp 10-90% along the segment plus a
random horizontal offset of up to WIDTH * 0.4 from the center line. -/
def hazardPosition (seg : TrackSegment) (r : GenRand) : Vec3 :=
  let t := r.hazT * 0.8 + 0.1
  let base := vlerp seg.start seg.endPt t
  let offDir := vnormalize ⟨r.hazOffX - 0.5, 0, r.hazOffZ - 0.5⟩
  vadd base (smul (r.hazOffLen * (TRACK.WIDTH * 0.4)) offDir)

/-- Power-up position: as for hazards but with offset up to WIDTH * 0.3 and
raised 3 units above the track. -/
def powerUpPosition (seg : TrackSegment) (r : GenRand) : Vec3 :=
  let t := r.powT * 0.8 + 0.1
  let base := vlerp seg.start seg.endPt t
  let offDir := vnormalize ⟨r.powOffX - 0.5, 0, r.powOffZ - 0.5⟩
  let p := vadd base (smul (r.powOffLen * (TRACK.WIDTH * 0.3)) offDir)
  ⟨p.x, p.y + 3, p.z⟩

/-- The hard-coded first segment of initializeTrack (id 0, straight, flagged
as a checkpoint). -/
def startSegment : TrackSegment :=
  { start := vzero
    endPt := ⟨0, 0, -TRACK.SEGMENT_LENGTH⟩
    direction := ⟨0, 0, -1⟩
    width := TRACK.WIDTH
    curvature := 0
    pitch := 0
    isCheckpoint := true
    id := 0 }

/-- One segment built by the initializeTrack loop at index i (curvature and
pitch are zeroed for i ≤ 2; the checkpoint flag is i % CHECKPOINT_INTERVAL == 0). -/
def mkInitSegment (i : ℕ) (r : GenRand) (lastSeg : TrackSegment) : TrackSegment :=
  let curvature := if 2 < i then (r.curv - 0.5) * TRACK.CURVATURE_MAX else 0
  let pitch := if 2 < i then (r.pitch - 0.5) * TRACK.PITCH_MAX else 0
  let dir := newSegmentDirection lastSeg.direction curvature pitch
  { start := lastSeg.endPt
    endPt := vadd lastSeg.endPt (smul TRACK.SEGMENT_LENGTH dir)
    direction := dir
    width := TRACK.WIDTH
    curvature := curvature
    pitch := pitch
    isCheckpoint := (i : ℤ) % TRACK.CHECKPOINT_INTERVAL = 0
    id := (i : ℤ) }

/-- The for-loop of initializeTrack (i = 1 up to 5), threading the last
segment and the accumulated lists; hazard/power-up ids are
i * 100 + (current count of the respective list). -/
def initLoop (rnd : ℕ → GenRand) :
    List ℕ → TrackSegment → List TrackSegment → List Hazard → List PowerUp →
    List TrackSegment × List Hazard × List PowerUp
  | [], _, ts, hz, pw => (ts, hz, pw)
  | i :: rest, lastSeg, ts, hz, pw =>
      let r := rnd i
      let seg := mkInitSegment i r lastSeg
      let hz' :=
        if 2 < i ∧ r.hazRoll < 0.7 then
          hz ++ [{ htype := pickHazardType r.hazTypeR
                   position := hazardPosition seg r
                   size := 3 + r.hazSizeR * 2
                   id := (i : ℤ) * 100 + (hz.length : ℤ)
                   active := true }]
        else hz
      let pw' :=
        if 1 < i ∧ r.powRoll < 0.3 then
          pw ++ [{ ptype := pickPowerUpType r.powTypeR
                   position := powerUpPosition seg r
                   size := 2
                   id := (i : ℤ) * 100 + (pw.length : ℤ)
                   active := true }]
        else pw
      initLoop rnd rest seg (ts ++ [seg]) hz' pw'

/-- initializeTrack (useRocketGame.tsx): the fixed start segment followed by
five generated segments (the for-loop indices i = 1, …, 5), replacing the
track/hazard/power-up collections. -/
def initializeTrack (rnd : ℕ → GenRand) (s : GameState) : GameState :=
  let b := initLoop rnd [1, 2, 3, 4, 5] startSegment [startSegment] [] []
  { s with track := b.1, hazards := b.2.1, powerUps := b.2.2 }

/-- generateNewTrackSegment (useRocketGame.tsx): extend the window by one
segment continuing from the last one (id + 1, start = previous end), with a
probabilistic hazard (density 0.7) and power-up (density 0.3) whose ids are
newSegmentId * 100 + Math.floor(Math.random() * 1000). -/
def generateNewTrackSegment (r : GenRand) (s : GameState) : GameState :=
  match s.track.getLast? with
  | none => s
  | some lastSeg =>
      let curvature := (r.curv - 0.5) * TRACK.CURVATURE_MAX
      let pitch := (r.pitch - 0.5) * TRACK.PITCH_MAX
      let dir := newSegmentDirection lastSeg.direction curvature pitch
      let newSegmentId := lastSeg.id + 1
      let seg : TrackSegment :=
        { start := lastSeg.endPt
          endPt := vadd lastSeg.endPt (smul TRACK.SEGMENT_LENGTH dir)
          direction := dir
          width := TRACK.WIDTH
          curvature := curvature
          pitch := pitch
          isCheckpoint := newSegmentId % TRACK.CHECKPOINT_INTERVAL = 0
          id := newSegmentId }
      let hz :=
        if r.hazRoll < 0.7 then
          s.hazards ++ [{ htype := pickHazardType r.hazTypeR
                          position := hazardPosition seg r
                          size := 3 + r.hazSizeR * 2
                          id := newSegmentId * 100 + Int.floor (r.hazIdR * 1000)
                          active := true }]
        else s.hazards
      let pw :=
        if r.powRoll < 0.3 then
          s.powerUps ++ [{ ptype := pickPowerUpType r.powTypeR
                           position := powerUpPosition seg r
                           size := 2
                           id := newSegmentId * 100 + Int.floor (r.powIdR * 1000)
                           active := true }]
        else s.powerUps
      { s with track := s.track ++ [seg], hazards := hz, powerUps := pw }

/-- removeOldTrackSegment (useRocketGame.tsx): when more than one segment is
live, drop the first one and filter out the hazards/power-ups whose
Math.floor(id / 100) equals the dropped segment's id. -/
def removeOldTrackSegment (s : GameState) : GameState :=
  match s.track with
  | t0 :: t1 :: rest =>
      { s with
          track := t1 :: rest
          hazards := s.hazards.filter (fun h => Int.fdiv h.id 100 != t0.id)
          powerUps := s.powerUps.filter (fun p => Int.fdiv p.id 100 != t0.id) }
  | _ => s

/-- restartGame (useRocketGame.tsx): re-initialize the track, then set the
phase to Ready and reset time, score, lap, lapTimes and the rocket.
bestLapTime and lastCheckpointId are not among the keys it writes. -/
def restartGame (rnd : ℕ → GenRand) (s : GameState) : GameState :=
  let s1 := initializeTrack rnd s
  { s1 with
      phase := GamePhase.ready
      time := 0
      score := 0
      lap := 1
      lapTimes := []
      rocket := initialRocket }

/-- startGame (useRocketGame.tsx): from Ready only, initialize the track and
enter Playing with time/score/lap/lapTimes and the rocket reset. -/
def startGame (rnd : ℕ → GenRand) (s : GameState) : GameState :=
  if s.phase = GamePhase.ready then
    let s1 := initializeTrack rnd s
    { s1 with
        phase := GamePhase.playing
        time := 0
        score := 0
        lap := 1
        lapTimes := []
        rocket := initialRocket }
  else s

/-! ## Vehicle physics (updateRocket) -/

/-- What updateRocket sees of one entry of the collisionObjects array: the
userData tag and, for power-ups and checkpoints, the attached payload. -/
inductive ObjKind where
  | hazardObj
  | powerupObj (pu : PowerUp)
  | checkpointObj (cid : ℤ)
  | boundaryObj
  | otherObj

/-- A collision object handed to updateRocket: its userData.collidable flag,
its world bounding box (Box3.setFromObject) and its tag. -/
structure CollisionObject where
  collidable : Bool
  box : Box3
  kind : ObjKind

/-- The power-up array update on consumption: flip active to false on the
first entry with the given id (findIndex), if any. -/
def deactivateFirst (cid : ℤ) : List PowerUp → List PowerUp
  | [] => []
  | p :: rest =>
      if p.id = cid then { p with active := false } :: rest
      else p :: deactivateFirst cid rest

/-- The collision loop at the end of updateRocket.  s0 is the state the set
callback captured; sc is the current store state (nested set calls, i.e.
checkpointPassed, apply to it immediately); r is the local rocket copy.
An active power-up hit returns early, spreading the captured state (so it
discards every nested change) with the local rocket and the updated
power-up array; otherwise the loop ends by merging the local rocket and
the camera target.  Unshielded hazard hits subtract COLLISION_DAMAGE and,
at health ≤ 0, schedule endGame(false) 100 ms later; unshielded boundary
hits dampen-reverse the velocity and subtract 5 with the same check. -/
def collideFold (s0 : GameState) (rocketBox : Box3) (dir : Vec3) :
    List CollisionObject → RocketState → GameState → List Sched →
    GameState × List Sched
  | [], r, sc, evs =>
      ({ sc with rocket := r,
                 cameraTarget := vadd r.position (smul 10 dir) }, evs)
  | o :: rest, r, sc, evs =>
      if o.collidable = false then collideFold s0 rocketBox dir rest r sc evs
      else if boxIntersects rocketBox o.box then
        match o.kind with
        | ObjKind.hazardObj =>
            if r.isShielded then collideFold s0 rocketBox dir rest r sc evs
            else
              let r' := { r with health := r.health - ROCKET.COLLISION_DAMAGE }
              let evs' :=
                if r'.health ≤ 0 then evs ++ [Sched.endGameLose 100] else evs
              collideFold s0 rocketBox dir rest r' sc evs'
        | ObjKind.powerupObj pu =>
            if pu.active then
              ({ s0 with rocket := r,
                         powerUps := deactivateFirst pu.id s0.powerUps }, evs)
            else collideFold s0 rocketBox dir rest r sc evs
        | ObjKind.checkpointObj cid =>
            collideFold s0 rocketBox dir rest r (checkpointPassed cid sc) evs
        | ObjKind.boundaryObj =>
            if r.isShielded then collideFold s0 rocketBox dir rest r sc evs
            else
              let r' := { r with velocity := smul (-0.5) r.velocity,
                                 health := r.health - 5 }
              let evs' :=
                if r'.health ≤ 0 then evs ++ [Sched.endGameLose 100] else evs
              collideFold s0 rocketBox dir rest r' sc evs'
        | ObjKind.otherObj => collideFold s0 rocketBox dir rest r sc evs
      else collideFold s0 rocketBox dir rest r sc evs

/-- The physics part of updateRocket (useRocketGame.tsx): timer decay (boost
expiry sets the cooldown flag and schedules its clearing BOOST_COOLDOWN ms
later via setTimeout), boost activation, rotation, thrust, drag, the speed
clamp, position integration and the speed readout.  Returns the updated
rocket, the forward direction (used afterwards for the camera target) and
the wall-clock callbacks scheduled so far. -/
def physicsStep (deltaTime : ℝ) (ctl : Controls) (r0 : RocketState) :
    RocketState × Vec3 × List Sched :=
  let br :=
    if r0.isBoosting then
      let btr := r0.boostTimeRemaining - deltaTime
      if btr ≤ 0 then
        ({ r0 with boostTimeRemaining := btr, isBoosting := false,
                   boostCooldown := true },
         [Sched.clearBoostCooldown ROCKET.BOOST_COOLDOWN])
      else ({ r0 with boostTimeRemaining := btr }, ([] : List Sched))
    else (r0, ([] : List Sched))
  let r1 := br.1
  let r2 :=
    if r1.isShielded then
      let str := r1.shieldTimeRemaining - deltaTime
      if str ≤ 0 then
        { r1 with shieldTimeRemaining := str, isShielded := false }
      else { r1 with shieldTimeRemaining := str }
    else r1
  let acceleration : ℝ :=
    if ctl.forward then ROCKET.ACCELERATION
    else if ctl.backward then -ROCKET.ACCELERATION
    else 0
  let r3 :=
    if ctl.boost ∧ r2.boostCooldown = false ∧ r2.isBoosting = false then
      { r2 with isBoosting := true,
                boostTimeRemaining := ROCKET.BOOST_DURATION }
    else r2
  let rotY :=
    if ctl.leftward then axisAngle ⟨0, 1, 0⟩ ROCKET.ROTATION_SPEED
    else if ctl.rightward then axisAngle ⟨0, 1, 0⟩ (-ROCKET.ROTATION_SPEED)
    else qid
  let rotX :=
    if ctl.pitchUp then axisAngle ⟨1, 0, 0⟩ (-ROCKET.PITCH_SPEED)
    else if ctl.pitchDown then axisAngle ⟨1, 0, 0⟩ ROCKET.PITCH_SPEED
    else qid
  let rot := qmul (qmul r3.rotation rotY) rotX
  let dir := applyQuat ⟨0, 0, -1⟩ rot
  let speedMultiplier : ℝ := if r3.isBoosting then ROCKET.BOOST_MULTIPLIER else 1
  let v1 := vadd r3.velocity (smul (acceleration * speedMultiplier) dir)
  let v2 := smul ROCKET.DRAG v1
  let maxSpeed :=
    ROCKET.MAX_SPEED * (if r3.isBoosting then ROCKET.BOOST_MULTIPLIER else 1)
  let v3 := if maxSpeed < vlength v2 then smul maxSpeed (vnormalize v2) else v2
  let pos := vadd r3.position v3
  ({ r3 with rotation := rot, velocity := v3, position := pos,
             speed := vlength v3 }, dir, br.2)

/-- updateRocket (useRocketGame.tsx): the physics step followed by the
collision loop over the collidable objects.  Returns the new store state
together with the wall-clock callbacks scheduled during the tick. -/
def updateRocket (deltaTime : ℝ) (ctl : Controls) (objs : List CollisionObject)
    (s : GameState) : GameState × List Sched :=
  let p := physicsStep deltaTime ctl s.rocket
  collideFold s (boxFromCenterSize p.1.position ⟨2, 2, 4⟩) p.2.1 objs p.1 s
    p.2.2

/-! ## Collision engine (collisionDetection.ts) -/

/-- checkHazardCollision: AABB test between a box around the rocket and a
cube of side hazard.size around the hazard. -/
def checkHazardCollision (rocketPosition rocketSize : Vec3) (h : Hazard) : Bool :=
  boxIntersects (boxFromCenterSize rocketPosition rocketSize)
    (boxFromCenterSize h.position ⟨h.size, h.size, h.size⟩)

/-- checkPowerUpCollision: skip inactive entries, then the same AABB test. -/
def checkPowerUpCollision (rocketPosition rocketSize : Vec3) (p : PowerUp) : Bool :=
  if p.active = false then false
  else
    boxIntersects (boxFromCenterSize rocketPosition rocketSize)
      (boxFromCenterSize p.position ⟨p.size, p.size, p.size⟩)

/-- THREE.Line3.closestPointToPoint with clampToLine: the parameter along
start→end, clamped to [0, 1], then interpolated. -/
def closestPointOnSegment (p : Vec3) (seg : TrackSegment) : Vec3 :=
  let d := vsub seg.endPt seg.start
  let t := vdot d (vsub p seg.start) / vdot d d
  let tc := max 0 (min 1 t)
  vadd seg.start (smul tc d)

/-- The minimum-distance scan of checkTrackBoundaryCollision: fold over the
segments keeping the smallest point-to-segment distance and its segment
(none stands for the initial Infinity / null pair; ties keep the earlier
segment because the comparison is strict). -/
def closestSegmentScan (p : Vec3) (segs : List TrackSegment) :
    Option (ℝ × TrackSegment) :=
  segs.foldl
    (fun acc seg =>
      let d := vdist p (closestPointOnSegment p seg)
      match acc with
      | none => some (d, seg)
      | some md => if d < md.1 then some (d, seg) else acc)
    none

/-- checkTrackBoundaryCollision: boundary collision iff the minimum distance
to the polyline exceeds half the segment width minus the rocket half-width
minus a 0.2 buffer. -/
def checkTrackBoundaryCollision (rocketPosition rocketSize : Vec3)
    (segs : List TrackSegment) : Bool :=
  match closestSegmentScan rocketPosition segs with
  | none => false
  | some md =>
      let rocketHalfWidth := max rocketSize.x rocketSize.z / 2
      md.2.width / 2 - rocketHalfWidth - 0.2 < md.1

/-- checkCheckpointCollision: the plane through the segment's end with normal
the segment direction; a crossing is a sign change of the point-to-plane
distance between the previous and current positions, and the current
position projected onto the plane must lie within half the width of the
plane anchor. -/
def checkCheckpointCollision (rocketPosition rocketPrevPosition : Vec3)
    (seg : TrackSegment) : Bool :=
  if seg.isCheckpoint = false then false
  else
    let n := seg.direction
    let distTo : Vec3 → ℝ := fun p => vdot n p + (-(vdot n seg.endPt))
    let prevSide : Prop := 0 < distTo rocketPrevPosition
    let currentSide : Prop := 0 < distTo rocketPosition
    if ¬(prevSide ↔ currentSide) then
      let offset := projectOnPlane (vsub rocketPosition seg.endPt) n
      vlength offset < seg.width / 2
    else false

/-- The structured result of detectCollisions; checkpoint none stands for
the source's sentinel record with collided = false and id = -1. -/
structure CollisionResult where
  trackBoundary : Bool
  hazards : List Hazard
  powerUps : List PowerUp
  checkpoint : Option ℤ

/-- detectCollisions (collisionDetection.ts).  Note the checkpoint scan
overwrites result.checkpoint on every matching segment, so the id reported
is the last matching segment's in segment order. -/
def detectCollisions (rocketPosition rocketPrevPosition rocketSize : Vec3)
    (trackSegments : List TrackSegment) (hazards : List Hazard)
    (powerUps : List PowerUp) : CollisionResult :=
  { trackBoundary :=
      checkTrackBoundaryCollision rocketPosition rocketSize trackSegments
    hazards := hazards.filter
      (fun h => h.active && checkHazardCollision rocketPosition rocketSize h)
    powerUps := powerUps.filter
      (fun p => p.active && checkPowerUpCollision rocketPosition rocketSize p)
    checkpoint := trackSegments.foldl
      (fun acc seg =>
        if seg.isCheckpoint &&
            checkCheckpointCollision rocketPosition rocketPrevPosition seg then
          some seg.id
        else acc)
      none }

/-! ## Game-state tick and the frame driver -/

/-- updateGameState (useRocketGame.tsx): only while Playing, extend the track
when the rocket is within 2 segment lengths of the last segment's end, evict
when it is more than 3 segment lengths past the first segment's start, then
accumulate the elapsed time. -/
def updateGameState (deltaTime : ℝ) (r : GenRand) (s : GameState) : GameState :=
  if s.phase = GamePhase.playing then
    let currentPosition := s.rocket.position
    let s1 :=
      match s.track.getLast? with
      | some lastSeg =>
          if vdist currentPosition lastSeg.endPt < TRACK.SEGMENT_LENGTH * 2 then
            generateNewTrackSegment r s
          else s
      | none => s
    let s2 :=
      match s1.track.head? with
      | some firstSeg =>
          if TRACK.SEGMENT_LENGTH * 3 < vdist currentPosition firstSeg.start then
            removeOldTrackSegment s1
          else s1
      | none => s1
    { s2 with time := s2.time + deltaTime }
  else s

/-- One pass of the Game component's useFrame loop: clamp the frame delta to
0.1 s and convert to ms; when Playing, run the physics tick, the game-state
tick, then detectCollisions against the pre-frame snapshot of the
track/hazard/power-up collections (with the pre-tick position as the
previous position), activating each collided power-up and feeding a
collided checkpoint to checkpointPassed.  When not Playing the frame does
nothing.  The second component collects the wall-clock callbacks the frame
scheduled. -/
def gameFrame (deltaTime : ℝ) (ctl : Controls) (objs : List CollisionObject)
    (rnd : GenRand) (s : GameState) : GameState × List Sched :=
  if s.phase = GamePhase.playing then
    let clampedDelta := min deltaTime 0.1 * 1000
    let prevPosition := s.rocket.position
    let u := updateRocket clampedDelta ctl objs s
    let s2 := updateGameState clampedDelta rnd u.1
    let cr := detectCollisions s2.rocket.position prevPosition ⟨2, 2, 4⟩
      s.track s.hazards s.powerUps
    let s3 := cr.powerUps.foldl (fun st pu => activatePowerUp pu.ptype st) s2
    let s4 :=
      match cr.checkpoint with
      | some cid => checkpointPassed cid s3
      | none => s3
    (s4, u.2)
  else (s, [])

/-! ## Operation sequences used by the claims -/

/-- A track-window operation: initialization, generation of one segment, or
eviction of the oldest segment (each with the random draws it consumes). -/
inductive TrackOp where
  | initOp (rnd : ℕ → GenRand)
  | genOp (rnd : GenRand)
  | evictOp

def applyTrackOp (s : GameState) : TrackOp → GameState
  | TrackOp.initOp rnd => initializeTrack rnd s
  | TrackOp.genOp rnd => generateNewTrackSegment rnd s
  | TrackOp.evictOp => removeOldTrackSegment s

def applyTrackOps (ops : List TrackOp) (s : GameState) : GameState :=
  ops.foldl applyTrackOp s

/-- A sequence of checkpoint-crossing events fed to checkpointPassed. -/
def processCheckpointEvents (evs : List ℤ) (s : GameState) : GameState :=
  evs.foldl (fun st e => checkpointPassed e st) s

/-- n physics ticks of fixed duration with no input and no collision objects
(only the per-tick state transition; scheduled wall-clock callbacks are not
fired). -/
def tickN (dt : ℝ) : ℕ → GameState → GameState
  | 0, s => s
  | n + 1, s => tickN dt n (updateRocket dt noCtl [] s).1

/-- A fixed random-draw record (every Math.random() result is 0.5) used for
concrete instances. -/
def someRand : GenRand :=
  { curv := 0.5, pitch := 0.5, hazRoll := 0.5, hazT := 0.5, hazOffX := 0.5,
    hazOffZ := 0.5, hazOffLen := 0.5, hazTypeR := 0.5, hazSizeR := 0.5,
    hazIdR := 0.5, powRoll := 0.5, powT := 0.5, powOffX := 0.5,
    powOffZ := 0.5, powOffLen := 0.5, powTypeR := 0.5, powIdR := 0.5 }

/-! ## Basic lemmas -/

theorem checkpointPassed_of_le {cid : ℤ} {s : GameState}
    (h : cid ≤ s.lastCheckpointId) : checkpointPassed cid s = s := by
  unfold checkpointPassed
  rw [if_pos h]

theorem checkpointPassed_lastId_le (cid : ℤ) (s : GameState) :
    s.lastCheckpointId ≤ (checkpointPassed cid s).lastCheckpointId := by
  unfold checkpointPassed
  split_ifs with h1 h2
  · exact le_refl _
  · exact le_of_lt (lt_of_not_le h1)
  · exact le_of_lt (lt_of_not_le h1)

theorem checkpointPassed_phase (cid : ℤ) (s : GameState) :
    (checkpointPassed cid s).phase = s.phase := by
  unfold checkpointPassed
  split_ifs <;> rfl

theorem checkpointPassed_lastId_nonneg (cid : ℤ) (s : GameState)
    (h : 0 ≤ s.lastCheckpointId) :
    0 ≤ (checkpointPassed cid s).lastCheckpointId :=
  le_trans h (checkpointPassed_lastId_le cid s)

theorem processCheckpointEvents_lastId_le (evs : List ℤ) :
    ∀ s : GameState,
      s.lastCheckpointId ≤ (processCheckpointEvents evs s).lastCheckpointId := by
  induction evs with
  | nil => intro s; exact le_refl _
  | cons e rest ih =>
      intro s
      exact le_trans (checkpointPassed_lastId_le e s) (ih (checkpointPassed e s))

/-- Claim C2: over every sequence of checkpoint-crossing events fed to
checkpointPassed, the stored last-accepted checkpoint id is non-decreasing,
and any single event with id at or below the current last-accepted id leaves
the whole state (score, lap, lap times, best lap, elapsed time) unchanged. -/
theorem checkpoint_monotonicity (s : GameState) (evs : List ℤ) :
    s.lastCheckpointId ≤ (processCheckpointEvents evs s).lastCheckpointId ∧
    ∀ e : ℤ, e ≤ s.lastCheckpointId → checkpointPassed e s = s :=
  ⟨processCheckpointEvents_lastId_le evs s, fun _ h => checkpointPassed_of_le h⟩

/-- Witness for C2 at the initial store state and the event sequence [0]. -/
theorem checkpoint_monotonicity_witness :
    initialState.lastCheckpointId ≤
      (processCheckpointEvents [0] initialState).lastCheckpointId ∧
    checkpointPassed 0 initialState = initialState :=
  ⟨(checkpoint_monotonicity initialState [0]).1,
   (checkpoint_monotonicity initialState [0]).2 0 (by norm_num [initialState])⟩

/-- Claim C8: a frame processed while the phase is Ready, GameOver or
Finished does nothing: in particular a checkpoint crossing occurring then is
a no-op on score, lap, lap times, best lap, elapsed time and the
last-accepted checkpoint id (the frame driver gates all event processing,
including checkpointPassed, behind phase == Playing). -/
theorem non_playing_checkpoint_noop (dt : ℝ) (ctl : Controls)
    (objs : List CollisionObject) (rnd : GenRand) (s : GameState)
    (h : s.phase = GamePhase.ready ∨ s.phase = GamePhase.gameOver ∨
      s.phase = GamePhase.finished) :
    gameFrame dt ctl objs rnd s = (s, []) := by
  have hne : ¬(s.phase = GamePhase.playing) := by
    rcases h with h | h | h <;> simp [h]
  unfold gameFrame
  rw [if_neg hne]

/-- Witness for C8 at the initial (Ready) store state. -/
theorem non_playing_checkpoint_noop_witness :
    gameFrame 16 noCtl [] someRand initialState = (initialState, []) :=
  non_playing_checkpoint_noop 16 noCtl [] someRand initialState
    (Or.inl (by simp [initialState]))

/-- A mid-race store state reached before a restart: one lap recorded, a best
lap time of 42000 ms, and checkpoint 6 last accepted. -/
def stMidRace : GameState :=
  { initialState with
      phase := GamePhase.gameOver
      time := 123
      score := 700
      lap := 2
      lapTimes := [9]
      bestLapTime := some 42000
      lastCheckpointId := 6 }

/-- Claim C1 (evaluation): restartGame resets phase, time, score, lap, lap
times and the rocket, but leaves bestLapTime and lastCheckpointId at their
pre-restart values (6 and 42000 here) instead of resetting them to their
initial values 0 and none.  After this restart the freshly initialized track
ids restart at 0, so checkpoints 3 and 6 can never score again. -/
theorem restart_preserves_best_and_last_checkpoint :
    (restartGame (fun _ => someRand) stMidRace).lastCheckpointId = 6 ∧
    (restartGame (fun _ => someRand) stMidRace).bestLapTime = some 42000 ∧
    (restartGame (fun _ => someRand) stMidRace).phase = GamePhase.ready ∧
    (restartGame (fun _ => someRand) stMidRace).time = 0 ∧
    (restartGame (fun _ => someRand) stMidRace).score = 0 ∧
    (restartGame (fun _ => someRand) stMidRace).lap = 1 ∧
    (restartGame (fun _ => someRand) stMidRace).lapTimes = ([] : List ℝ) ∧
    (restartGame (fun _ => someRand) stMidRace).rocket = initialRocket := by
  simp [restartGame, initializeTrack, stMidRace, initialState]

/-- Claim C10: the initialized track flags segment 0 as a checkpoint, but the
last-accepted checkpoint id starts at 0 and checkpointPassed ignores every id
at or below it, so crossing checkpoint 0 never changes any race field (the
last-accepted id never drops below 0); the only other checkpoint in the
initial window is id 3 = CHECKPOINT_INTERVAL, the first that can score, and
it awards exactly the 100-point checkpoint bonus from the initial state. -/
theorem first_scoring_checkpoint :
    initialState.lastCheckpointId = 0 ∧
    (∀ (rnd : ℕ → GenRand) (s : GameState),
      (initializeTrack rnd s).track.map (fun sg => (sg.id, sg.isCheckpoint)) =
        [(0, true), (1, false), (2, false), (3, true), (4, false), (5, false)]) ∧
    (∀ s : GameState, 0 ≤ s.lastCheckpointId → checkpointPassed 0 s = s) ∧
    (∀ (s : GameState) (cid : ℤ), 0 ≤ s.lastCheckpointId →
      0 ≤ (checkpointPassed cid s).lastCheckpointId) ∧
    (3 : ℤ) = TRACK.CHECKPOINT_INTERVAL ∧
    (checkpointPassed 3 initialState).score = 100 ∧
    (checkpointPassed 3 initialState).lastCheckpointId = 3 := by
  refine ⟨rfl, ?_, ?_, ?_, rfl, ?_, ?_⟩
  · intro rnd s
    simp [initializeTrack, initLoop, mkInitSegment, startSegment,
      TRACK.CHECKPOINT_INTERVAL]
  · intro s h
    exact checkpointPassed_of_le h
  · intro s cid h
    exact checkpointPassed_lastId_nonneg cid s h
  · simp [checkpointPassed, initialState, TRACK.CHECKPOINT_INTERVAL]
  · simp [checkpointPassed, initialState, TRACK.CHECKPOINT_INTERVAL]

/-- Witness for C10: crossing checkpoint 0 from the initial state is a
no-op. -/
theorem first_scoring_checkpoint_witness :
    checkpointPassed 0 initialState = initialState ∧
    initialState.lastCheckpointId = 0 :=
  ⟨first_scoring_checkpoint.2.2.1 initialState (by norm_num [initialState]),
   first_scoring_checkpoint.1⟩

/-! ## Track-window connectivity (C5) -/

/-- The window invariant: each segment starts exactly where the previous one
ends, and ids increase by exactly 1 from one segment to the next. -/
def segChain (l : List TrackSegment) : Prop :=
  List.Chain' (fun a b => b.start = a.endPt ∧ b.id = a.id + 1) l

theorem initializeTrack_chain (rnd : ℕ → GenRand) (s : GameState) :
    segChain (initializeTrack rnd s).track := by
  simp [initializeTrack, initLoop, segChain, List.chain'_cons,
    List.chain'_singleton, mkInitSegment, startSegment]

theorem generateNewTrackSegment_chain (r : GenRand) (s : GameState)
    (h : segChain s.track) : segChain (generateNewTrackSegment r s).track := by
  unfold generateNewTrackSegment
  cases hL : s.track.getLast? with
  | none => simpa using h
  | some lastSeg =>
      simp only []
      refine List.chain'_append.2 ⟨h, List.chain'_singleton _, ?_⟩
      intro x hx y hy
      rw [hL] at hx
      simp only [Option.mem_def, Option.some.injEq] at hx
      simp only [List.head?_cons, Option.mem_def, Option.some.injEq] at hy
      subst hx
      subst hy
      exact ⟨rfl, rfl⟩

theorem removeOldTrackSegment_chain (s : GameState) (h : segChain s.track) :
    segChain (removeOldTrackSegment s).track := by
  unfold removeOldTrackSegment
  match hT : s.track with
  | [] => simpa [hT] using h
  | [t0] => simpa [hT] using h
  | t0 :: t1 :: rest =>
      rw [hT] at h
      exact (List.chain'_cons.1 h).2

/-- Claim C5: every live track window reachable by any sequence of
initialization, segment generation and eviction satisfies
segment[i+1].start = segment[i].end exactly, with ids contiguous and
increasing by exactly 1 across the window. -/
theorem segment_connectivity (ops : List TrackOp) :
    segChain ((applyTrackOps ops initialState).track) := by
  have main : ∀ (ops : List TrackOp) (s : GameState), segChain s.track →
      segChain ((applyTrackOps ops s).track) := by
    intro ops
    induction ops with
    | nil => intro s h; exact h
    | cons op rest ih =>
        intro s h
        refine ih (applyTrackOp s op) ?_
        cases op with
        | initOp rnd => exact initializeTrack_chain rnd s
        | genOp r => exact generateNewTrackSegment_chain r s h
        | evictOp => exact removeOldTrackSegment_chain s h
  exact main ops initialState (by simp [initialState, segChain])

/-! ## Hazard/power-up eviction ids (C6) -/

/-- Random draws for one generateNewTrackSegment call in which the hazard
probability roll succeeds (0.5 < 0.7), the power-up roll fails (0.5 ≥ 0.3)
and the hazard id suffix roll Math.floor(0.25 * 1000) is 250. -/
def rndHaz : GenRand := { someRand with hazIdR := 0.25 }

/-- A straight live segment with id 6. -/
def seg6 : TrackSegment :=
  { start := vzero, endPt := ⟨0, 0, -100⟩, direction := ⟨0, 0, -1⟩,
    width := 30, curvature := 0, pitch := 0, isCheckpoint := true, id := 6 }

def seg7x : TrackSegment :=
  { start := ⟨0, 0, -100⟩, endPt := ⟨0, 0, -200⟩, direction := ⟨0, 0, -1⟩,
    width := 30, curvature := 0, pitch := 0, isCheckpoint := false, id := 7 }

def seg8x : TrackSegment :=
  { start := ⟨0, 0, -200⟩, endPt := ⟨0, 0, -300⟩, direction := ⟨0, 0, -1⟩,
    width := 30, curvature := 0, pitch := 0, isCheckpoint := false, id := 8 }

/-- The hazard generated for segment 7 with id 7 * 100 + 250 = 950. -/
def haz950 : Hazard :=
  { htype := HazardType.asteroid, position := vzero, size := 4, id := 950,
    active := true }

/-- A window whose oldest live segment is 7, with segment 7's hazard 950. -/
def stWindow7 : GameState :=
  { initialState with track := [seg7x, seg8x], hazards := [haz950] }

def stWindow6 : GameState := { initialState with track := [seg6] }

/-- Claim C6 (evaluation): generateNewTrackSegment gives segment 7's hazard
the id 7 * 100 + Math.floor(0.25 * 1000) = 950, and Math.floor(950 / 100)
= 9 ≠ 7, so the id does not map back to the owning segment; consequently
evicting segment 7 (removeOldTrackSegment on a window whose first segment
has id 7) leaves that hazard in the live collection, contradicting the
claim that eviction removes exactly the owning segment's hazards. -/
theorem hazard_eviction_mismatch :
    ((generateNewTrackSegment rndHaz stWindow6).track.map TrackSegment.id
        = [6, 7]) ∧
    ((generateNewTrackSegment rndHaz stWindow6).hazards.map Hazard.id
        = [950]) ∧
    ((generateNewTrackSegment rndHaz stWindow6).powerUps = []) ∧
    Int.fdiv 950 100 = 9 ∧ (9 : ℤ) ≠ 7 ∧
    ((removeOldTrackSegment stWindow7).track.map TrackSegment.id = [8]) ∧
    (removeOldTrackSegment stWindow7).hazards = [haz950] := by
  have hfloor : Int.floor ((0.25 : ℝ) * 1000) = 250 := by
    have h1 : ((0.25 : ℝ) * 1000) = ((250 : ℤ) : ℝ) := by norm_num
    rw [h1, Int.floor_intCast]
  refine ⟨?_, ?_, ?_, by decide, by decide, ?_, ?_⟩
  · simp [generateNewTrackSegment, stWindow6, initialState, seg6, rndHaz,
      someRand]
  · simp [generateNewTrackSegment, stWindow6, initialState, seg6, rndHaz,
      someRand, hfloor]
    norm_num [hfloor]
  · simp [generateNewTrackSegment, stWindow6, initialState, seg6, rndHaz,
      someRand]
    norm_num
  · simp [removeOldTrackSegment, stWindow7, initialState, seg7x, seg8x,
      haz950]
  · simp [removeOldTrackSegment, stWindow7, initialState, seg7x, seg8x,
      haz950]

/-! ## Checkpoint reporting order (C7) -/

theorem getLast?_cons_or {α : Type} (a : α) (l : List α) :
    (a :: l).getLast? = l.getLast?.or (some a) := by
  induction l generalizing a with
  | nil => simp
  | cons b l' ih =>
      rw [List.getLast?_cons_cons, ih b]
      cases hL : l'.getLast? <;> simp

theorem foldl_last_scan (g : TrackSegment → Bool) (segs : List TrackSegment) :
    ∀ acc : Option ℤ,
      segs.foldl (fun a seg => if g seg then some seg.id else a) acc
        = (((segs.filter g).map TrackSegment.id).getLast?).or acc := by
  induction segs with
  | nil => intro acc; simp
  | cons s rest ih =>
      intro acc
      rw [List.foldl_cons, ih]
      by_cases hg : g s
      · simp only [List.filter_cons, hg, if_pos, List.map_cons,
          getLast?_cons_or]
        cases hL : ((rest.filter g).map TrackSegment.id).getLast? <;> simp
      · simp [List.filter_cons, hg]

/-- Claim C7 amended: detectCollisions reports at most one checkpoint (an
Option), and the id reported is that of the LAST segment in segment order
meeting the crossing condition (the scan overwrites its accumulator on
every match), not the first. -/
theorem checkpoint_report_last (pos prev size : Vec3)
    (segs : List TrackSegment) (hz : List Hazard) (pw : List PowerUp) :
    (detectCollisions pos prev size segs hz pw).checkpoint
      = ((segs.filter (fun seg => seg.isCheckpoint &&
            checkCheckpointCollision pos prev seg)).map TrackSegment.id).getLast? := by
  unfold detectCollisions
  rw [foldl_last_scan]
  cases ((segs.filter (fun seg => seg.isCheckpoint &&
      checkCheckpointCollision pos prev seg)).map TrackSegment.id).getLast? <;>
    simp

/-- A checkpoint segment with id 3 ending on the plane z = -100. -/
def segA : TrackSegment :=
  { start := vzero, endPt := ⟨0, 0, -100⟩, direction := ⟨0, 0, -1⟩,
    width := 30, curvature := 0, pitch := 0, isCheckpoint := true, id := 3 }

/-- A checkpoint segment with id 6 ending on the plane z = -200. -/
def segB : TrackSegment :=
  { start := ⟨0, 0, -100⟩, endPt := ⟨0, 0, -200⟩, direction := ⟨0, 0, -1⟩,
    width := 30, curvature := 0, pitch := 0, isCheckpoint := true, id := 6 }

def posAfter : Vec3 := ⟨0, 0, -250⟩

def posBefore : Vec3 := ⟨0, 0, 50⟩

/-- Claim C7 (counterexample): with one tick moving from z = 50 to z = -250
both checkpoint segments 3 and 6 meet the crossing condition, yet
detectCollisions reports id 6 — the last matching segment — whereas the
claim says the first one (id 3) is reported. -/
theorem checkpoint_report_counterexample :
    (detectCollisions posAfter posBefore ⟨2, 2, 4⟩ [segA, segB] [] []).checkpoint
        = some 6 ∧
    (segA.isCheckpoint && checkCheckpointCollision posAfter posBefore segA)
        = true ∧
    segA.id = 3 ∧ (6 : ℤ) ≠ 3 := by
  have hA : checkCheckpointCollision posAfter posBefore segA = true := by
    simp only [checkCheckpointCollision, segA, posAfter, posBefore, vdot,
      projectOnPlane, vsub, smul, vlength]
    norm_num [Real.sqrt_eq_zero']
  have hB : checkCheckpointCollision posAfter posBefore segB = true := by
    simp only [checkCheckpointCollision, segB, posAfter, posBefore, vdot,
      projectOnPlane, vsub, smul, vlength]
    norm_num [Real.sqrt_eq_zero']
  refine ⟨?_, ?_, by simp [segA], by decide⟩
  · unfold detectCollisions
    simp [hA, hB, show segA.isCheckpoint = true from rfl,
      show segB.isCheckpoint = true from rfl, show segB.id = (6 : ℤ) from rfl]
  · simp [hA, show segA.isCheckpoint = true from rfl]

/-! ## Norm lemmas and the collision-loop invariants -/

theorem vlength_nonneg (v : Vec3) : 0 ≤ vlength v := Real.sqrt_nonneg _

theorem vlength_smul (c : ℝ) (v : Vec3) :
    vlength (smul c v) = |c| * vlength v := by
  unfold vlength smul
  simp only []
  rw [show (c * v.x) ^ 2 + (c * v.y) ^ 2 + (c * v.z) ^ 2
      = c ^ 2 * (v.x ^ 2 + v.y ^ 2 + v.z ^ 2) by ring]
  rw [Real.sqrt_mul (sq_nonneg c), Real.sqrt_sq_eq_abs]

theorem vlength_normalize {v : Vec3} (h : vlength v ≠ 0) :
    vlength (vnormalize v) = 1 := by
  unfold vnormalize
  rw [if_neg h, vlength_smul]
  have hpos : 0 < vlength v := lt_of_le_of_ne (vlength_nonneg v) (Ne.symm h)
  rw [abs_of_pos (by positivity)]
  field_simp

/-- The source's speed clamp never produces a speed above the cap. -/
theorem clamp_speed_le (v : Vec3) (m : ℝ) (hm : 0 < m) :
    vlength (if m < vlength v then smul m (vnormalize v) else v) ≤ m := by
  split_ifs with h
  · have hv : vlength v ≠ 0 := ne_of_gt (lt_trans hm h)
    rw [vlength_smul, vlength_normalize hv, abs_of_pos hm, mul_one]
  · exact le_of_not_lt h

/-- Invariants of the collision loop: it never touches the boost flags or
the stored scalar speed, it can only shrink the velocity (boundary
rebounds multiply it by -0.5), it never changes the phase (the GameOver
transition is only scheduled), and it only appends scheduled callbacks. -/
theorem collideFold_props (s0 : GameState) (box : Box3) (dir : Vec3) :
    ∀ (objs : List CollisionObject) (r : RocketState) (sc : GameState)
      (evs : List Sched), sc.phase = s0.phase →
      (collideFold s0 box dir objs r sc evs).1.rocket.isBoosting = r.isBoosting ∧
      (collideFold s0 box dir objs r sc evs).1.rocket.boostCooldown
          = r.boostCooldown ∧
      (collideFold s0 box dir objs r sc evs).1.rocket.speed = r.speed ∧
      vlength (collideFold s0 box dir objs r sc evs).1.rocket.velocity
          ≤ vlength r.velocity ∧
      (collideFold s0 box dir objs r sc evs).1.phase = s0.phase ∧
      ∀ e ∈ evs, e ∈ (collideFold s0 box dir objs r sc evs).2 := by
  intro objs
  induction objs with
  | nil =>
      intro r sc evs hp
      exact ⟨rfl, rfl, rfl, le_refl _, hp, fun e he => he⟩
  | cons o rest ih =>
      intro r sc evs hp
      obtain ⟨cb, bb, kb⟩ := o
      cases kb with
      | hazardObj =>
          simp only [collideFold]
          by_cases hc : cb = false
          · rw [if_pos hc]; exact ih r sc evs hp
          · rw [if_neg hc]
            by_cases hi : boxIntersects box bb
            · rw [if_pos hi]
              by_cases hs : r.isShielded = true
              · rw [if_pos hs]; exact ih r sc evs hp
              · rw [if_neg hs]
                have ih' := ih
                  { r with health := r.health - ROCKET.COLLISION_DAMAGE } sc
                  (if r.health - ROCKET.COLLISION_DAMAGE ≤ 0 then
                    evs ++ [Sched.endGameLose 100] else evs) hp
                exact ⟨ih'.1, ih'.2.1, ih'.2.2.1, ih'.2.2.2.1,
                  ih'.2.2.2.2.1, fun e he => ih'.2.2.2.2.2 e (by
                    split_ifs
                    · exact List.mem_append_left _ he
                    · exact he)⟩
            · rw [if_neg hi]; exact ih r sc evs hp
      | powerupObj pu =>
          simp only [collideFold]
          by_cases hc : cb = false
          · rw [if_pos hc]; exact ih r sc evs hp
          · rw [if_neg hc]
            by_cases hi : boxIntersects box bb
            · rw [if_pos hi]
              by_cases ha : pu.active = true
              · rw [if_pos ha]
                exact ⟨rfl, rfl, rfl, le_refl _, rfl, fun e he => he⟩
              · rw [if_neg ha]; exact ih r sc evs hp
            · rw [if_neg hi]; exact ih r sc evs hp
      | checkpointObj cid =>
          simp only [collideFold]
          by_cases hc : cb = false
          · rw [if_pos hc]; exact ih r sc evs hp
          · rw [if_neg hc]
            by_cases hi : boxIntersects box bb
            · rw [if_pos hi]
              exact ih r (checkpointPassed cid sc) evs
                ((checkpointPassed_phase cid sc).trans hp)
            · rw [if_neg hi]; exact ih r sc evs hp
      | boundaryObj =>
          simp only [collideFold]
          by_cases hc : cb = false
          · rw [if_pos hc]; exact ih r sc evs hp
          · rw [if_neg hc]
            by_cases hi : boxIntersects box bb
            · rw [if_pos hi]
              by_cases hs : r.isShielded = true
              · rw [if_pos hs]; exact ih r sc evs hp
              · rw [if_neg hs]
                have ih' := ih
                  { r with velocity := smul (-0.5) r.velocity,
                           health := r.health - 5 } sc
                  (if r.health - 5 ≤ 0 then
                    evs ++ [Sched.endGameLose 100] else evs) hp
                refine ⟨ih'.1, ih'.2.1, ih'.2.2.1, ?_, ih'.2.2.2.2.1,
                  fun e he => ih'.2.2.2.2.2 e (by
                    split_ifs
                    · exact List.mem_append_left _ he
                    · exact he)⟩
                refine le_trans ih'.2.2.2.1 ?_
                show vlength (smul (-0.5) r.velocity) ≤ vlength r.velocity
                rw [vlength_smul, show |(-0.5 : ℝ)| = 0.5 by norm_num]
                have h0 := vlength_nonneg r.velocity
                nlinarith
            · rw [if_neg hi]; exact ih r sc evs hp
      | otherObj =>
          simp only [collideFold]
          by_cases hc : cb = false
          · rw [if_pos hc]; exact ih r sc evs hp
          · rw [if_neg hc]
            by_cases hi : boxIntersects box bb
            · rw [if_pos hi]; exact ih r sc evs hp
            · rw [if_neg hi]; exact ih r sc evs hp

theorem physicsStep_speed_eq (dt : ℝ) (ctl : Controls) (r0 : RocketState) :
    (physicsStep dt ctl r0).1.speed
      = vlength (physicsStep dt ctl r0).1.velocity := rfl

theorem physicsStep_speed_le (dt : ℝ) (ctl : Controls) (r0 : RocketState) :
    vlength (physicsStep dt ctl r0).1.velocity
      ≤ ROCKET.MAX_SPEED *
        (if (physicsStep dt ctl r0).1.isBoosting then ROCKET.BOOST_MULTIPLIER
         else 1) := by
  have hb : ∀ b : Bool,
      (0 : ℝ) < ROCKET.MAX_SPEED * (if b then ROCKET.BOOST_MULTIPLIER else 1) := by
    intro b
    cases b <;> norm_num [ROCKET.MAX_SPEED, ROCKET.BOOST_MULTIPLIER]
  simp only [physicsStep]
  exact clamp_speed_le _ _ (hb _)

/-- Claim C3: after every physics tick, for every starting state and control
intent, both the velocity magnitude and the stored scalar speed are at most
MAX_SPEED times the boost multiplier when the resulting state is boosting,
and at most MAX_SPEED otherwise. -/
theorem speed_clamp (dt : ℝ) (ctl : Controls) (objs : List CollisionObject)
    (s : GameState) :
    vlength ((updateRocket dt ctl objs s).1.rocket.velocity)
      ≤ ROCKET.MAX_SPEED *
        (if (updateRocket dt ctl objs s).1.rocket.isBoosting then
          ROCKET.BOOST_MULTIPLIER else 1) ∧
    (updateRocket dt ctl objs s).1.rocket.speed
      ≤ ROCKET.MAX_SPEED *
        (if (updateRocket dt ctl objs s).1.rocket.isBoosting then
          ROCKET.BOOST_MULTIPLIER else 1) := by
  have hP := collideFold_props s
    (boxFromCenterSize (physicsStep dt ctl s.rocket).1.position ⟨2, 2, 4⟩)
    (physicsStep dt ctl s.rocket).2.1 objs (physicsStep dt ctl s.rocket).1 s
    (physicsStep dt ctl s.rocket).2.2 rfl
  have hEq : updateRocket dt ctl objs s
      = collideFold s
          (boxFromCenterSize (physicsStep dt ctl s.rocket).1.position ⟨2, 2, 4⟩)
          (physicsStep dt ctl s.rocket).2.1 objs (physicsStep dt ctl s.rocket).1
          s (physicsStep dt ctl s.rocket).2.2 := rfl
  rw [hEq]
  obtain ⟨hb, _, hsp, hv, _, _⟩ := hP
  rw [hb, hsp]
  constructor
  · exact le_trans hv (physicsStep_speed_le dt ctl s.rocket)
  · have h2 := physicsStep_speed_le dt ctl s.rocket
    rw [← physicsStep_speed_eq] at h2
    exact h2

/-! ## Boost-cooldown behaviour (C9) -/

theorem physicsStep_cooldown_persist (dt : ℝ) (ctl : Controls)
    (r0 : RocketState) (h : r0.boostCooldown = true) :
    (physicsStep dt ctl r0).1.boostCooldown = true := by
  simp only [physicsStep]
  split_ifs <;> simp_all

theorem physicsStep_expiry (dt : ℝ) (ctl : Controls) (r0 : RocketState)
    (h1 : r0.isBoosting = true) (h2 : r0.boostTimeRemaining - dt ≤ 0) :
    (physicsStep dt ctl r0).1.isBoosting = false ∧
    (physicsStep dt ctl r0).1.boostCooldown = true ∧
    (physicsStep dt ctl r0).2.2
      = [Sched.clearBoostCooldown ROCKET.BOOST_COOLDOWN] := by
  simp only [physicsStep, h1, if_pos h2]
  split_ifs <;> simp_all

theorem updateRocket_eq_collideFold (dt : ℝ) (ctl : Controls)
    (objs : List CollisionObject) (s : GameState) :
    updateRocket dt ctl objs s
      = collideFold s
          (boxFromCenterSize (physicsStep dt ctl s.rocket).1.position ⟨2, 2, 4⟩)
          (physicsStep dt ctl s.rocket).2.1 objs (physicsStep dt ctl s.rocket).1
          s (physicsStep dt ctl s.rocket).2.2 := rfl

theorem updateRocket_cooldown_persist (dt : ℝ) (ctl : Controls)
    (objs : List CollisionObject) (s : GameState)
    (h : s.rocket.boostCooldown = true) :
    (updateRocket dt ctl objs s).1.rocket.boostCooldown = true := by
  have hP := collideFold_props s
    (boxFromCenterSize (physicsStep dt ctl s.rocket).1.position ⟨2, 2, 4⟩)
    (physicsStep dt ctl s.rocket).2.1 objs (physicsStep dt ctl s.rocket).1 s
    (physicsStep dt ctl s.rocket).2.2 rfl
  rw [updateRocket_eq_collideFold, hP.2.1]
  exact physicsStep_cooldown_persist dt ctl s.rocket h

theorem updateRocket_expiry (dt : ℝ) (ctl : Controls)
    (objs : List CollisionObject) (s : GameState)
    (h1 : s.rocket.isBoosting = true)
    (h2 : s.rocket.boostTimeRemaining - dt ≤ 0) :
    (updateRocket dt ctl objs s).1.rocket.isBoosting = false ∧
    (updateRocket dt ctl objs s).1.rocket.boostCooldown = true ∧
    Sched.clearBoostCooldown ROCKET.BOOST_COOLDOWN
      ∈ (updateRocket dt ctl objs s).2 := by
  have hP := collideFold_props s
    (boxFromCenterSize (physicsStep dt ctl s.rocket).1.position ⟨2, 2, 4⟩)
    (physicsStep dt ctl s.rocket).2.1 objs (physicsStep dt ctl s.rocket).1 s
    (physicsStep dt ctl s.rocket).2.2 rfl
  obtain ⟨hex1, hex2, hex3⟩ := physicsStep_expiry dt ctl s.rocket h1 h2
  rw [updateRocket_eq_collideFold, hP.1, hP.2.1]
  refine ⟨hex1, hex2, hP.2.2.2.2.2 _ ?_⟩
  rw [hex3]
  exact List.mem_singleton.2 rfl

theorem tickN_cooldown_persist (dt : ℝ) (n : ℕ) :
    ∀ s : GameState, s.rocket.boostCooldown = true →
      (tickN dt n s).rocket.boostCooldown = true := by
  induction n with
  | zero => intro s h; exact h
  | succ n ih =>
      intro s h
      exact ih _ (updateRocket_cooldown_persist dt noCtl [] s h)

/-- A playing state in which the rocket is boosting with 1 ms of boost left. -/
def stBoost : GameState :=
  { initialState with
      phase := GamePhase.playing
      rocket :=
        { initialRocket with
            isBoosting := true
            boostTimeRemaining := 1 } }

/-- A state in which the boost cooldown flag is set. -/
def stCooldown : GameState :=
  { initialState with
      rocket := { initialRocket with boostCooldown := true } }

/-- Claim C9 (counterexample): a 16 ms tick ends the boost and sets the
cooldown flag, scheduling a setTimeout of BOOST_COOLDOWN = 5000 ms to clear
it; yet after 60 further ticks of 100 ms each — 6000 ms of accumulated tick
time, past the cooldown duration — the per-tick transition still has the
cooldown flag set: the flag is only ever cleared by the wall-clock callback,
never by the tick function, contradicting the claimed per-tick countdown. -/
theorem boost_cooldown_counterexample :
    ((updateRocket 16 noCtl [] stBoost).1.rocket.isBoosting = false ∧
     (updateRocket 16 noCtl [] stBoost).1.rocket.boostCooldown = true ∧
     Sched.clearBoostCooldown ROCKET.BOOST_COOLDOWN
       ∈ (updateRocket 16 noCtl [] stBoost).2) ∧
    ROCKET.BOOST_COOLDOWN = 5000 ∧
    ROCKET.BOOST_COOLDOWN ≤ (60 : ℝ) * 100 ∧
    (tickN 100 60 (updateRocket 16 noCtl [] stBoost).1).rocket.boostCooldown
      = true := by
  have hex := updateRocket_expiry 16 noCtl [] stBoost rfl
    (by norm_num [stBoost, initialRocket])
  exact ⟨hex, rfl, by norm_num [ROCKET.BOOST_COOLDOWN],
    tickN_cooldown_persist 100 60 _ hex.2.1⟩

/-- Claim C9 amended: boost expiry itself is a per-tick countdown (the boost
time remaining is decremented by the tick duration and checked against 0),
but cooldown expiry is not: when boosting ends, the cooldown flag is set and
its clearing is scheduled as a wall-clock setTimeout callback of fixed delay
BOOST_COOLDOWN; the tick transition never clears the flag, regardless of the
accumulated tick durations, so the cooldown flag stays set on every
subsequent tick until the external callback fires. -/
theorem boost_cooldown_amended (dt : ℝ) (ctl : Controls)
    (objs : List CollisionObject) (s : GameState) :
    (s.rocket.boostCooldown = true →
      (updateRocket dt ctl objs s).1.rocket.boostCooldown = true) ∧
    (s.rocket.isBoosting = true → s.rocket.boostTimeRemaining - dt ≤ 0 →
      (updateRocket dt ctl objs s).1.rocket.isBoosting = false ∧
      (updateRocket dt ctl objs s).1.rocket.boostCooldown = true ∧
      Sched.clearBoostCooldown ROCKET.BOOST_COOLDOWN
        ∈ (updateRocket dt ctl objs s).2) :=
  ⟨fun h => updateRocket_cooldown_persist dt ctl objs s h,
   fun h1 h2 => updateRocket_expiry dt ctl objs s h1 h2⟩

/-- Witness for C9 amended at two concrete states: a set cooldown flag
persists through a tick, and an expiring boost clears the boosting flag. -/
theorem boost_cooldown_amended_witness :
    (updateRocket 16 noCtl [] stCooldown).1.rocket.boostCooldown = true ∧
    (updateRocket 16 noCtl [] stBoost).1.rocket.isBoosting = false :=
  ⟨(boost_cooldown_amended 16 noCtl [] stCooldown).1 rfl,
   ((boost_cooldown_amended 16 noCtl [] stBoost).2 rfl
     (by norm_num [stBoost, initialRocket])).1⟩

/-! ## Health and the deferred GameOver transition (C4) -/

theorem qmul_qid (q : Quat) : qmul q qid = q := by
  cases q
  simp [qmul, qid]

theorem applyQuat_qid (v : Vec3) : applyQuat v qid = v := by
  cases v
  simp [applyQuat, qid]

theorem vadd_zero_right (v : Vec3) : vadd v ⟨0, 0, 0⟩ = v := by
  cases v
  simp [vadd]

theorem vlength_zero : vlength ⟨0, 0, 0⟩ = 0 := by
  norm_num [vlength, Real.sqrt_zero]

/-- Evaluation of the physics step under no input for a non-boosting,
unshielded rocket at rest with identity orientation: pose and health are
unchanged and nothing is scheduled. -/
theorem physicsStep_idle (dt : ℝ) (r0 : RocketState)
    (hB : r0.isBoosting = false) (hS : r0.isShielded = false)
    (hRot : r0.rotation = qid) (hV : r0.velocity = vzero) :
    (physicsStep dt noCtl r0).1.position = r0.position ∧
    (physicsStep dt noCtl r0).1.health = r0.health ∧
    (physicsStep dt noCtl r0).1.isShielded = false ∧
    (physicsStep dt noCtl r0).1.isBoosting = false ∧
    (physicsStep dt noCtl r0).2.2 = ([] : List Sched) := by
  simp [physicsStep, noCtl, hB, hS, hRot, hV, qmul_qid, vzero, smul, vadd,
    vlength, ROCKET.MAX_SPEED, ROCKET.DRAG, Real.sqrt_zero,
    vadd_zero_right, (show ¬((2 : ℝ) < 0) by norm_num)]

/-- A collision object tagged as a hazard whose world box covers the rocket
spawn position. -/
def hzObj : CollisionObject :=
  { collidable := true
    box := ⟨⟨-1, 1, -2⟩, ⟨1, 3, 2⟩⟩
    kind := ObjKind.hazardObj }

/-- A playing state with 5 health left. -/
def stLowHealth : GameState :=
  { initialState with
      phase := GamePhase.playing
      rocket := { initialRocket with health := 5 } }

/-- Claim C4 (counterexample): with health 5 and two colliding hazards in one
tick, the first hit drives health to -5 ≤ 0 — yet the phase does not become
GameOver (endGame(false) is merely scheduled as a 100 ms setTimeout) and the
second hit still applies damage, leaving health at -15: damage keeps being
applied after the terminal check. -/
theorem health_terminal_counterexample :
    (updateRocket 16 noCtl [hzObj, hzObj] stLowHealth).1.rocket.health = -15 ∧
    (updateRocket 16 noCtl [hzObj, hzObj] stLowHealth).1.phase
        = GamePhase.playing ∧
    Sched.endGameLose 100 ∈ (updateRocket 16 noCtl [hzObj, hzObj] stLowHealth).2 := by
  obtain ⟨hpos, hhealth, hshield, hboost, hevs⟩ :=
    physicsStep_idle 16 stLowHealth.rocket rfl rfl rfl rfl
  have hrpos : stLowHealth.rocket.position = (⟨0, 2, 0⟩ : Vec3) := rfl
  have hrh : stLowHealth.rocket.health = (5 : ℝ) := rfl
  have hph : stLowHealth.phase = GamePhase.playing := rfl
  have hbox : boxIntersects (boxFromCenterSize ⟨0, 2, 0⟩ ⟨2, 2, 4⟩)
      (⟨⟨-1, 1, -2⟩, ⟨1, 3, 2⟩⟩ : Box3) := by
    norm_num [boxIntersects, boxFromCenterSize, vsub, vadd, smul]
  rw [updateRocket_eq_collideFold, hevs, hpos, hrpos]
  simp only [collideFold, hzObj]
  simp only [if_neg (show ¬(true = false) by norm_num), if_pos hbox]
  simp only [hshield, ROCKET.COLLISION_DAMAGE,
    if_neg (show ¬(false = true) by norm_num)]
  simp only [hhealth, hrh]
  norm_num [hph]

/-- Claim C4 amended: when an unshielded hazard or boundary collision drives
health to or below 0, updateRocket only schedules the GameOver transition
(a deferred endGame(false) callback) and never changes the phase itself, so
within the same tick — and on subsequent ticks until the callback fires —
further damage is still applied and health keeps decreasing; once the phase
has actually left Playing the frame loop applies no damage at all. -/
theorem health_terminal_amended (dt : ℝ) (ctl : Controls)
    (objs : List CollisionObject) (rnd : GenRand) (s : GameState) :
    (updateRocket dt ctl objs s).1.phase = s.phase ∧
    (s.phase ≠ GamePhase.playing →
      (gameFrame dt ctl objs rnd s).1.rocket.health = s.rocket.health) := by
  constructor
  · have hP := collideFold_props s
      (boxFromCenterSize (physicsStep dt ctl s.rocket).1.position ⟨2, 2, 4⟩)
      (physicsStep dt ctl s.rocket).2.1 objs (physicsStep dt ctl s.rocket).1 s
      (physicsStep dt ctl s.rocket).2.2 rfl
    rw [updateRocket_eq_collideFold]
    exact hP.2.2.2.2.1
  · intro h
    unfold gameFrame
    rw [if_neg h]

/-- Witness for C4 amended: a frame in the GameOver phase leaves health
unchanged, and a physics tick from the initial state leaves the phase
unchanged. -/
theorem health_terminal_amended_witness :
    (gameFrame 16 noCtl [] someRand
        { initialState with phase := GamePhase.gameOver }).1.rocket.health
      = ({ initialState with phase := GamePhase.gameOver } : GameState).rocket.health ∧
    (updateRocket 16 noCtl [] initialState).1.phase = initialState.phase :=
  ⟨(health_terminal_amended 16 noCtl [] someRand
      { initialState with phase := GamePhase.gameOver }).2 (by simp),
   (health_terminal_amended 16 noCtl [] someRand initialState).1⟩

end

end RocketGame
